import Mathlib

/-!
Shallow embedding of `test-cache-locally.py` (class `LocalCacheTester` and `main`),
the test-orchestration engine of the repository.  External effects (child
processes, the filesystem, the wall clock) are modelled as explicit inputs:
each place the Python code performs an external call takes the call's outcome
as a parameter, and functions that invoke external commands additionally
return the list of command vectors they spawned, so that "no external call"
claims are statable.  Wall-clock durations are environmental and are modelled
as 0 throughout; no claim concerns duration values.
-/

/-- `CacheTestResult` from the source: one probe outcome record.
The `timestamp` field of the Python class is wall-clock environmental data
and is omitted; no claim concerns it. -/
structure CacheTestResult where
  test_name : String
  status : String
  duration : Nat
  message : String
deriving Repr, DecidableEq

/-- Outcome of one `subprocess.run` call, as seen by `run_command`:
either the child completed with an exit code and captured streams, or the
wait timed out (`subprocess.TimeoutExpired`), or launching raised some other
exception whose text is `msg` (binary not found, permission denied, ...). -/
inductive CmdOutcome where
  | completed (returncode : Int) (stdout stderr : String)
  | timedOut
  | launchError (msg : String)
deriving Repr, DecidableEq

/-- `LocalCacheTester.run_command`: returns `(returncode, stdout, stderr)`;
on `TimeoutExpired` returns `(-1, "", "Command timed out after {timeout}s")`,
on any other exception `(-1, "", str(e))`.  Total by construction: it never
raises to its caller. -/
def run_command (timeout : Nat) (outcome : CmdOutcome) : Int × String × String :=
  match outcome with
  | .completed rc out err => (rc, out, err)
  | .timedOut => (-1, "", "Command timed out after " ++ toString timeout ++ "s")
  | .launchError msg => (-1, "", msg)

/-- Worker for `pySplit`: `cur` holds the characters of the token being
built, most recent first. -/
def pySplitGo : List Char → List Char → List String
  | [], cur => if cur = [] then [] else [String.mk cur.reverse]
  | c :: cs, cur =>
    if c.isWhitespace then
      if cur = [] then pySplitGo cs []
      else String.mk cur.reverse :: pySplitGo cs []
    else pySplitGo cs (c :: cur)

/-- Python `str.split()` with no argument: split on runs of whitespace,
discarding empty pieces. -/
def pySplit (s : String) : List String := pySplitGo s.data []

/-- Python `str.strip()` with no argument: drop leading and trailing
whitespace. -/
def pyStrip (s : String) : String :=
  String.mk (((s.data.dropWhile Char.isWhitespace).reverse.dropWhile
    Char.isWhitespace).reverse)

/-- The decimal digit character for `d` (`0x30 = 48` is ASCII `0`). -/
def digitChar (d : Nat) : Char := Char.ofNat (48 + d)

/-- Decimal rendering of a natural number, least significant digit pushed
last; models Python `str()` of a non-negative int. -/
def natStrAux : Nat → List Char → List Char
  | 0, acc => acc
  | n + 1, acc => natStrAux ((n + 1) / 10) (digitChar ((n + 1) % 10) :: acc)
decreasing_by exact Nat.div_lt_self (Nat.succ_pos n) (by decide)

def natStr (n : Nat) : String :=
  if n = 0 then "0" else String.mk (natStrAux n [])

/-- `10·x` rounded to the nearest integer, ties to even — the digit stream
Python `f"{x:.1f}"` prints for a non-negative value the float holds
exactly (true for every directory size below 2^53 bytes, since division by
1024 only shifts the binary exponent). -/
def round10 (x : ℚ) : Nat :=
  let num := 10 * x.num.toNat
  let den := x.den
  let q0 := num / den
  let r := num % den
  if den < 2 * r then q0 + 1
  else if 2 * r < den then q0
  else if q0 % 2 = 0 then q0 else q0 + 1

/-- Python `f"{x:.1f}"`: the rounded tenths, split as integer part, a dot
and exactly one decimal digit. -/
def fmt1 (x : ℚ) : String :=
  natStr (round10 x / 10) ++ "." ++ natStr (round10 x % 10)

/-- The unit ladder of the fallback loop in `get_dir_size`:
`for unit in ['B', 'KB', 'MB', 'GB']: if total_size < 1024.0: return ...;
total_size /= 1024.0`, with a final `TB` return. -/
def humanLoop : List String → ℚ → String
  | [], x => fmt1 x ++ " TB"
  | u :: us, x => if x < 1024 then fmt1 x ++ " " ++ u else humanLoop us (x / 1024)

def sizeUnits : List String := ["B", "KB", "MB", "GB"]

/-- The human-readable conversion at the end of `get_dir_size`. -/
def human_readable (total : Nat) : String := humanLoop sizeUnits (total : ℚ)

/-- The fallback walk of `get_dir_size`: one entry per file found by
`os.walk`, `some size` when `filepath.stat()` succeeded and `none` when it
raised `OSError`/`IOError` (the file is skipped and contributes nothing). -/
def walkTotal : List (Option Nat) → Nat
  | [] => 0
  | none :: rest => walkTotal rest
  | some sz :: rest => sz + walkTotal rest

/-- External state consumed by one `get_dir_size` call: whether `path`
exists, what the spawned `du -sh` would report, and what the fallback
`os.walk` would see (`none` when the walk itself raises, making the whole
summation fail). -/
structure DirEnv where
  path : String
  pathExists : Bool
  duOutcome : CmdOutcome
  walk : Option (List (Option Nat))
deriving Repr, DecidableEq

/-- The `du` step of `get_dir_size`: the first whitespace-separated token of
`du -sh`'s stdout when `du` exited 0 and printed one, else `none`
(`stdout.split()[0]` raises `IndexError` on an empty split, which the bare
`except` turns into the fallback path). -/
def duToken (env : DirEnv) : Option String :=
  let res := run_command 60 env.duOutcome
  if res.1 = 0 then (pySplit res.2.1).head? else none

/-- `LocalCacheTester.get_dir_size`, also returning the list of external
command vectors it spawned. -/
def get_dir_size (env : DirEnv) : String × List (List String) :=
  if env.pathExists = false then ("0 B", [])
  else
    let trace := [["du", "-sh", env.path]]
    match duToken env with
    | some tok => (tok, trace)
    | none =>
      match env.walk with
      | none => ("unknown", trace)
      | some files => (human_readable (walkTotal files), trace)

/-! ### Orchestrator: `run_all_tests` and the verdict -/

/-- `len([r for r in self.results if r.status == st])`. -/
def countStatus (rs : List CacheTestResult) (st : String) : Nat :=
  (rs.filter (fun r => r.status = st)).length

/-- The three-tier verdict at the end of `run_all_tests`:
`if failed == 0 ... elif failed <= 2 and warnings > 0 ... else ...`,
named by the message tier it logs. -/
def computeVerdict (failed warnings : Nat) : String :=
  if failed = 0 then "ready"
  else if failed ≤ 2 ∧ 0 < warnings then "needs review"
  else "blocking issues"

/-- The verdict over a collected result list, using the same counts the
summary computes. -/
def overallVerdict (rs : List CacheTestResult) : String :=
  computeVerdict (countStatus rs "failed") (countStatus rs "warning")

/-- Behaviour of one declared probe's body when called by the orchestrator:
it either returns a `CacheTestResult` or raises an exception whose text is
`msg`. -/
inductive ProbeOutcome where
  | returns (r : CacheTestResult)
  | throws (msg : String)
deriving Repr, DecidableEq

/-- `test_name.lower().replace(" ", "_")` for the ASCII display names of the
declared probe list: lowering leaves a space alone and the single-character
replace is a per-character map, so the composition is one map. -/
def pyLowerUnderscore (s : String) : String :=
  String.mk (s.data.map (fun c => if c = ' ' then '_' else c.toLower))

/-- The probe loop of `run_all_tests` over the declared `tests` list:
a probe that returns contributes its result; a probe that raises is caught
and contributes `CacheTestResult(test_name.lower().replace(" ", "_"),
"failed", 0, str(e))`, and the loop continues with the next probe. -/
def runProbes : List (String × ProbeOutcome) → List CacheTestResult
  | [] => []
  | (_, .returns r) :: rest => r :: runProbes rest
  | (name, .throws msg) :: rest =>
      ⟨pyLowerUnderscore name, "failed", 0, msg⟩ :: runProbes rest

/-! ### `main`: process exit code -/

/-- How one invocation of `main` ends: `run_all_tests` and the report steps
complete with the collected results, or a `KeyboardInterrupt` arrives, or an
unhandled exception escapes to the top-level `except`. -/
inductive RunOutcome where
  | completed (results : List CacheTestResult)
  | interrupted
  | toplevelError (msg : String)
deriving Repr, DecidableEq

/-- The return value of `main`, which `sys.exit` turns into the process exit
code: `0 if failed_count == 0 else 1`, and `1` from both `except` arms. -/
def mainExitCode : RunOutcome → Int
  | .completed rs => if countStatus rs "failed" = 0 then 0 else 1
  | .interrupted => 1
  | .toplevelError _ => 1

/-! ### ReportBuilder: `generate_cache_report` recommendations -/

def failedHeader : String := "🔴 Fix failed tests before deploying to GitHub Actions"

def warningHeader : String := "🟡 Address warnings to improve reliability"

def readyRecommendation : String :=
  "✅ All tests passed - ready for GitHub Actions deployment"

/-- `f"   - {test.test_name}: {test.message}"`. -/
def recLine (t : CacheTestResult) : String :=
  "   - " ++ t.test_name ++ ": " ++ t.message

/-- The unconditional cache note of `generate_cache_report`, a function of
`report["cache_directories"]["pip"]["size"]`. -/
def cacheNote (pipSize : String) : String :=
  if pipSize = "0 B" then
    "💡 Pip cache is empty - first GitHub Actions run will be slower"
  else
    "✅ Pip cache active (" ++ pipSize ++ ") - subsequent runs will be faster"

/-- The recommendation block of `generate_cache_report`, built by the same
sequence of conditional appends as the source, as a function of the
collected results and of the pip cache directory's reported size. -/
def generate_recommendations (rs : List CacheTestResult) (pipSize : String) :
    List String :=
  let failed_tests := rs.filter (fun r => r.status = "failed")
  let warning_tests := rs.filter (fun r => r.status = "warning")
  let recs : List String := []
  let recs := if failed_tests ≠ [] then
    recs ++ [failedHeader] ++ failed_tests.map recLine else recs
  let recs := if warning_tests ≠ [] then
    recs ++ [warningHeader] ++ warning_tests.map recLine else recs
  let recs := if failed_tests = [] ∧ warning_tests = [] then
    recs ++ [readyRecommendation] else recs
  recs ++ [cacheNote pipSize]

/-! ### The `python_environment` probe -/

/-- External state consumed by one `test_python_environment` call: the two
version-check spawns, whether the pip cache directory exists beforehand, and
whether `mkdir(parents=True, exist_ok=True)` would raise (with the raised
exception's text, caught by the probe's outer `except`). -/
structure PyEnvState where
  pythonOutcome : CmdOutcome
  pipOutcome : CmdOutcome
  pipCacheExists : Bool
  mkdirRaises : Option String
deriving Repr, DecidableEq

/-- `LocalCacheTester.test_python_environment`, returning its
`CacheTestResult` together with whether the pip cache directory exists
afterwards (the probe's write side effect on the filesystem). -/
def test_python_environment (env : PyEnvState) : CacheTestResult × Bool :=
  let r1 := run_command 60 env.pythonOutcome
  if r1.1 ≠ 0 then
    (⟨"python_environment", "failed", 0, "Python not working: " ++ r1.2.2⟩,
     env.pipCacheExists)
  else
    let python_version := pyStrip r1.2.1
    let r2 := run_command 60 env.pipOutcome
    if r2.1 ≠ 0 then
      (⟨"python_environment", "failed", 0, "Pip not working: " ++ r2.2.2⟩,
       env.pipCacheExists)
    else if env.pipCacheExists = false then
      match env.mkdirRaises with
      | some e => (⟨"python_environment", "failed", 0, e⟩, false)
      | none =>
          (⟨"python_environment", "passed", 0,
            "Python " ++ python_version ++ " ready"⟩, true)
    else
      (⟨"python_environment", "passed", 0,
        "Python " ++ python_version ++ " ready"⟩, true)

/-! ### The `nodejs_detection` probe -/

/-- ASCII apostrophe (39), the quote Python `repr` puts around each list
element in `f"...({detected})..."`. -/
def pyQuote : String := String.mk [Char.ofNat 39]

/-- Comma-separated join, as Python list `repr` does between elements. -/
def joinSep : List String → String
  | [] => ""
  | [x] => x
  | x :: y :: xs => x ++ ", " ++ joinSep (y :: xs)

/-- Python `str()` of a list of strings, as interpolated by the f-string. -/
def pyReprList (xs : List String) : String :=
  "[" ++ joinSep (xs.map (fun s => pyQuote ++ s ++ pyQuote)) ++ "]"

/-- External state consumed by one `test_node_js_detection` call: existence
of the three recognized Node-ecosystem files in the project root, the
`node --version` spawn, and the npm cache directory as seen by
`get_dir_size`. -/
structure NodeEnvState where
  packageJson : Bool
  yarnLock : Bool
  pnpmLock : Bool
  nodeOutcome : CmdOutcome
  npmCache : DirEnv
deriving Repr, DecidableEq

/-- `LocalCacheTester.test_node_js_detection`, returning its
`CacheTestResult` together with the list of external command vectors it
spawned.  `package_managers` iterates in insertion order npm, yarn, pnpm. -/
def test_node_js_detection (env : NodeEnvState) :
    CacheTestResult × List (List String) :=
  let detected : List String :=
    (if env.packageJson then ["npm"] else []) ++
    (if env.yarnLock then ["yarn"] else []) ++
    (if env.pnpmLock then ["pnpm"] else [])
  if detected = [] then
    (⟨"nodejs_detection", "passed", 0,
      "No Node.js detected (Python-only project)"⟩, [])
  else
    let r := run_command 10 env.nodeOutcome
    if r.1 = 0 then
      let node_version := pyStrip r.2.1
      let sized := get_dir_size env.npmCache
      (⟨"nodejs_detection", "passed", 0,
        "Node.js " ++ node_version ++ " available, npm cache: " ++ sized.1⟩,
       ["node", "--version"] :: sized.2)
    else
      (⟨"nodejs_detection", "warning", 0,
        "Node.js files detected (" ++ pyReprList detected ++
          ") but Node.js not installed"⟩,
       [["node", "--version"]])

/-! ### Spec-side definitions, written from the spec's words, for the
refinement comparisons -/

/-- Modelled from the spec's verdict rule, for comparison with
`computeVerdict`: "zero failures ⇒ ready; 1–2 failures combined with at
least one warning ⇒ needs review; otherwise ⇒ blocking issues". -/
def specVerdict (failed warnings : Nat) : String :=
  if failed = 0 then "ready"
  else if 1 ≤ failed ∧ failed ≤ 2 ∧ 1 ≤ warnings then "needs review"
  else "blocking issues"

/-- Longest digit run at the front of a character list, with the rest. -/
def digitSpan : List Char → List Char × List Char
  | [] => ([], [])
  | c :: cs =>
    if c.isDigit then
      let p := digitSpan cs
      (c :: p.1, p.2)
    else ([], c :: cs)

/-- Modelled from the spec's words, for comparison with what `get_dir_size`
returns: "uses binary (1024-based) unit steps B → KB → MB → GB → TB,
formatted to one decimal place", i.e. a nonempty digit run, a dot, exactly
one digit, a space and one of the five unit names. -/
def specSizeFormat (s : String) : Bool :=
  let p := digitSpan s.data
  !p.1.isEmpty &&
    match p.2 with
    | '.' :: d :: ' ' :: us =>
        d.isDigit && (us == ['B'] || us == ['K', 'B'] || us == ['M', 'B'] ||
          us == ['G', 'B'] || us == ['T', 'B'])
    | _ => false

/-- The five unit suffixes of the spec's ladder, as character lists. -/
def unitShapes : List (List Char) :=
  [['B'], ['K', 'B'], ['M', 'B'], ['G', 'B'], ['T', 'B']]

/-! ## Theorems -/

/-- C1: the overall verdict is a function of the per-status counts: 0 failed
⇒ "ready"; otherwise at most 2 failed with at least 1 warning ⇒ "needs
review"; otherwise ⇒ "blocking issues" — agreeing with the spec's rule and
its exhaustive table on every combination of counts. -/
theorem verdict_matches_spec :
    (∀ rs, overallVerdict rs =
      specVerdict (countStatus rs "failed") (countStatus rs "warning")) ∧
    (∀ f w, computeVerdict f w = specVerdict f w) ∧
    (∀ w, computeVerdict 0 w = "ready") ∧
    (∀ w, computeVerdict 1 (w + 1) = "needs review") ∧
    (∀ w, computeVerdict 2 (w + 1) = "needs review") ∧
    computeVerdict 1 0 = "blocking issues" ∧
    (∀ w, computeVerdict 3 w = "blocking issues") := by
  have key : ∀ f w, computeVerdict f w = specVerdict f w := by
    intro f w
    simp only [computeVerdict, specVerdict]
    split_ifs <;> first | rfl | (exfalso; omega)
  refine ⟨fun rs => key _ _, key, fun w => ?_, fun w => ?_, fun w => ?_, ?_,
    fun w => ?_⟩ <;>
    · simp only [computeVerdict]
      split_ifs <;> first | rfl | simp_all

theorem runProbes_length (tests : List (String × ProbeOutcome)) :
    (runProbes tests).length = tests.length := by
  induction tests with
  | nil => rfl
  | cons t rest ih =>
    obtain ⟨n, o⟩ := t
    cases o <;> simp [runProbes, ih]

/-- C2: a probe that raises instead of returning contributes exactly one
synthetic failed result carrying the exception's message under the probe's
declared name (lowercased, spaces to underscores, as the source derives it),
the loop continues, and the final result sequence has exactly one entry per
declared probe. -/
theorem probe_defect_isolated (tests : List (String × ProbeOutcome))
    (i : Nat) (name msg : String)
    (h : tests[i]? = some (name, ProbeOutcome.throws msg)) :
    (runProbes tests).length = tests.length ∧
    (runProbes tests)[i]? =
      some ⟨pyLowerUnderscore name, "failed", 0, msg⟩ := by
  refine ⟨runProbes_length tests, ?_⟩
  induction tests generalizing i with
  | nil => simp at h
  | cons t rest ih =>
    obtain ⟨n, o⟩ := t
    cases i with
    | zero =>
      cases o with
      | returns r => simp at h
      | throws m =>
        simp at h
        obtain ⟨hn, hm⟩ := h
        simp [runProbes, hn, hm]
    | succ j =>
      simp at h
      cases o <;> simpa [runProbes] using ih j h

/-- Witness for C2: a two-probe run whose second probe raises "boom". -/
theorem probe_defect_isolated_witness :
    (runProbes [("Python Environment",
        ProbeOutcome.returns ⟨"python_environment", "passed", 0, "ok"⟩),
      ("Node.js Detection", ProbeOutcome.throws "boom")]).length = 2 ∧
    (runProbes [("Python Environment",
        ProbeOutcome.returns ⟨"python_environment", "passed", 0, "ok"⟩),
      ("Node.js Detection", ProbeOutcome.throws "boom")])[1]? =
      some ⟨"node.js_detection", "failed", 0, "boom"⟩ := by
  have h := probe_defect_isolated
    [("Python Environment",
        ProbeOutcome.returns ⟨"python_environment", "passed", 0, "ok"⟩),
      ("Node.js Detection", ProbeOutcome.throws "boom")]
    1 "Node.js Detection" "boom" rfl
  exact ⟨h.1, h.2.trans (by decide)⟩

/-- C3: `main` returns 0 exactly when no collected result has status
"failed"; interruption and an unhandled top-level defect both return 1. -/
theorem exit_code_zero_iff_no_failed :
    (∀ rs, mainExitCode (RunOutcome.completed rs) = 0 ↔
      countStatus rs "failed" = 0) ∧
    (∀ rs, mainExitCode (RunOutcome.completed rs) = 0 ∨
      mainExitCode (RunOutcome.completed rs) = 1) ∧
    mainExitCode RunOutcome.interrupted = 1 ∧
    (∀ m, mainExitCode (RunOutcome.toplevelError m) = 1) := by
  refine ⟨fun rs => ?_, fun rs => ?_, rfl, fun m => rfl⟩ <;>
    · simp only [mainExitCode]
      split_ifs with h <;> simp [h]

/-- C4: `run_command` is total (it never raises): on timeout it returns the
synthetic `(-1, "", msg)` triple whose message states the timeout duration,
on a launch failure it returns `(-1, "", text of the OS error)`, and on a
completed child it returns the captured triple unchanged. -/
theorem run_command_never_raises :
    (∀ t, run_command t CmdOutcome.timedOut =
      (-1, "", "Command timed out after " ++ toString t ++ "s")) ∧
    (∀ t msg, run_command t (CmdOutcome.launchError msg) = (-1, "", msg)) ∧
    (∀ t rc out err, run_command t (CmdOutcome.completed rc out err) =
      (rc, out, err)) :=
  ⟨fun _ => rfl, fun _ _ => rfl, fun _ _ _ _ => rfl⟩

/-- C5: for a path that does not exist, `get_dir_size` returns "0 B" and
spawns no external command. -/
theorem size_of_nonexistent (env : DirEnv) (h : env.pathExists = false) :
    get_dir_size env = ("0 B", []) := by
  simp [get_dir_size, h]

/-- Witness for C5 at a concrete environment. -/
theorem size_of_nonexistent_witness :
    get_dir_size ⟨"/nonexistent", false, CmdOutcome.timedOut, none⟩ =
      ("0 B", []) :=
  size_of_nonexistent _ rfl

/-- C7: the recommendation list is, in fixed order, the failed section
(header plus one quoted line per failed probe, present exactly when failed
probes exist), then the warning section likewise, then the single ready
recommendation exactly when neither exists, and in every case the final
cache note — `cacheNote` stating the first run will be slower when the size
reads "0 B" and that caching is active with the observed size otherwise. -/
theorem recommendations_fixed_order (rs : List CacheTestResult) (p : String) :
    generate_recommendations rs p =
      ((if rs.filter (fun r => r.status = "failed") = [] then []
        else failedHeader ::
          (rs.filter (fun r => r.status = "failed")).map recLine) ++
       (if rs.filter (fun r => r.status = "warning") = [] then []
        else warningHeader ::
          (rs.filter (fun r => r.status = "warning")).map recLine) ++
       (if rs.filter (fun r => r.status = "failed") = [] ∧
           rs.filter (fun r => r.status = "warning") = [] then
         [readyRecommendation] else [])) ++
      [cacheNote p] ∧
    ∃ front, generate_recommendations rs p = front ++ [cacheNote p] := by
  have main : generate_recommendations rs p =
      ((if rs.filter (fun r => r.status = "failed") = [] then []
        else failedHeader ::
          (rs.filter (fun r => r.status = "failed")).map recLine) ++
       (if rs.filter (fun r => r.status = "warning") = [] then []
        else warningHeader ::
          (rs.filter (fun r => r.status = "warning")).map recLine) ++
       (if rs.filter (fun r => r.status = "failed") = [] ∧
           rs.filter (fun r => r.status = "warning") = [] then
         [readyRecommendation] else [])) ++
      [cacheNote p] := by
    simp only [generate_recommendations]
    split_ifs <;> simp_all
  exact ⟨main, _, main⟩

theorem cacheNote_ne_ready (p : String) : cacheNote p ≠ readyRecommendation := by
  unfold cacheNote readyRecommendation
  split_ifs with h
  · decide
  · intro hEq
    have hd := congrArg String.data hEq
    rw [String.data_append, String.data_append] at hd
    have hpre : ("✅ Pip cache active (" : String).data =
        '✅' :: ' ' :: 'P' :: ("ip cache active (" : String).data := rfl
    rw [hpre] at hd
    have h3 := congrArg (fun l => l[2]?) hd
    simp at h3

/-- C8: a run over the empty probe list yields an empty result sequence, the
verdict "ready", and a recommendation list holding exactly one ready
recommendation (followed only by the unconditional cache note). -/
theorem empty_run_ready (p : String) :
    runProbes [] = [] ∧
    overallVerdict (runProbes []) = "ready" ∧
    generate_recommendations (runProbes []) p =
      [readyRecommendation, cacheNote p] ∧
    (generate_recommendations (runProbes []) p).count readyRecommendation
      = 1 := by
  refine ⟨rfl, rfl, rfl, ?_⟩
  have hne := cacheNote_ne_ready p
  show ([readyRecommendation, cacheNote p]).count readyRecommendation = 1
  simp [List.count_cons, hne]

/-- C9: whenever the `python_environment` probe returns a passed result, the
pip cache directory exists afterwards (the probe created it, parents
included, if it was missing). -/
theorem python_env_creates_pip_cache (env : PyEnvState)
    (h : (test_python_environment env).1.status = "passed") :
    (test_python_environment env).2 = true := by
  obtain ⟨po, pi, ex, mk⟩ := env
  cases mk <;> cases ex <;>
    simp only [test_python_environment] at h ⊢ <;>
    split_ifs at h ⊢ <;> simp_all

/-- Witness for C9: both version checks succeed and the pip cache directory
is missing beforehand; afterwards it exists. -/
theorem python_env_creates_pip_cache_witness :
    (test_python_environment
      ⟨CmdOutcome.completed 0 "Python 3.11.1\n" "",
       CmdOutcome.completed 0 "pip 23.0\n" "", false, none⟩).2 = true :=
  python_env_creates_pip_cache _ (by decide)

/-- C10: with none of package.json, yarn.lock, pnpm-lock.yaml present, the
`nodejs_detection` probe returns passed (not skipped) with the "No Node.js
detected" message and spawns no external command. -/
theorem nodejs_detection_no_files (env : NodeEnvState)
    (h1 : env.packageJson = false) (h2 : env.yarnLock = false)
    (h3 : env.pnpmLock = false) :
    test_node_js_detection env =
      (⟨"nodejs_detection", "passed", 0,
        "No Node.js detected (Python-only project)"⟩, []) := by
  obtain ⟨pj, yl, pl, no, nc⟩ := env
  simp only at h1 h2 h3
  subst h1 h2 h3
  simp [test_node_js_detection]

/-- Witness for C10 at a concrete environment with no Node files. -/
theorem nodejs_detection_no_files_witness :
    test_node_js_detection
      ⟨false, false, false, CmdOutcome.timedOut,
        ⟨"/home/u/.npm", false, CmdOutcome.timedOut, none⟩⟩ =
      (⟨"nodejs_detection", "passed", 0,
        "No Node.js detected (Python-only project)"⟩, []) :=
  nodejs_detection_no_files _ rfl rfl rfl

/-! ### C6: the format of `get_dir_size`'s output -/

theorem digitChar_isDigit {d : Nat} (h : d < 10) :
    (digitChar d).isDigit = true := by
  interval_cases d <;> decide

theorem natStrAux_all_digits (n : Nat) : ∀ acc : List Char,
    acc.all Char.isDigit = true →
    (natStrAux n acc).all Char.isDigit = true := by
  induction n using Nat.strong_induction_on with
  | _ n ih =>
    intro acc hacc
    match n with
    | 0 => simpa [natStrAux] using hacc
    | m + 1 =>
      rw [natStrAux]
      exact ih ((m + 1) / 10) (Nat.div_lt_self (Nat.succ_pos m) (by decide)) _
        (by simp [hacc, digitChar_isDigit (Nat.mod_lt _ (by decide))])

theorem natStrAux_ne_nil (n : Nat) : ∀ acc : List Char,
    n ≠ 0 ∨ acc ≠ [] → natStrAux n acc ≠ [] := by
  induction n using Nat.strong_induction_on with
  | _ n ih =>
    intro acc hd
    match n with
    | 0 =>
      rw [natStrAux]
      exact hd.resolve_left (fun h => h rfl)
    | m + 1 =>
      rw [natStrAux]
      exact ih ((m + 1) / 10) (Nat.div_lt_self (Nat.succ_pos m) (by decide)) _
        (Or.inr (by simp))

theorem natStr_digits (n : Nat) :
    (natStr n).data.all Char.isDigit = true ∧ (natStr n).data ≠ [] := by
  unfold natStr
  split
  · constructor <;> decide
  · exact ⟨natStrAux_all_digits n [] rfl,
      natStrAux_ne_nil n [] (Or.inl (by assumption))⟩

theorem natStr_single (d : Nat) (h : d < 10) :
    (natStr d).data = [digitChar d] := by
  unfold natStr
  split
  · rename_i h0
    subst h0
    decide
  · rename_i h0
    obtain ⟨m, rfl⟩ := Nat.exists_eq_succ_of_ne_zero h0
    show natStrAux (m + 1) [] = _
    rw [natStrAux, Nat.div_eq_of_lt h, Nat.mod_eq_of_lt h, natStrAux]

theorem digitSpan_split (as bs : List Char) (ha : as.all Char.isDigit = true)
    (hb : ∀ c cs, bs = c :: cs → c.isDigit = false) :
    digitSpan (as ++ bs) = (as, bs) := by
  induction as with
  | nil =>
    cases bs with
    | nil => rfl
    | cons c cs => simp [digitSpan, hb c cs rfl]
  | cons a as ih =>
    simp only [List.all_cons, Bool.and_eq_true] at ha
    simp [digitSpan, ha.1, ih ha.2]

theorem specSizeFormat_fmt1 (x : ℚ) (u : String) (hu : u.data ∈ unitShapes) :
    specSizeFormat (fmt1 x ++ " " ++ u) = true := by
  have hd10 : round10 x % 10 < 10 := Nat.mod_lt _ (by decide)
  have hdata : (fmt1 x ++ " " ++ u).data =
      (natStr (round10 x / 10)).data ++
        ('.' :: digitChar (round10 x % 10) :: ' ' :: u.data) := by
    simp [fmt1, String.data_append, natStr_single _ hd10]
  have hspan := digitSpan_split (natStr (round10 x / 10)).data
    ('.' :: digitChar (round10 x % 10) :: ' ' :: u.data)
    (natStr_digits _).1
    (by intro c cs hcc; injection hcc with h1 h2; subst h1; decide)
  have hne := (natStr_digits (round10 x / 10)).2
  simp only [specSizeFormat, hdata, hspan]
  simp [digitChar_isDigit hd10, List.isEmpty_iff, hne]
  simp only [unitShapes, List.mem_cons, List.not_mem_nil, or_false] at hu
  tauto

theorem humanLoop_units (us : List String) (x : ℚ)
    (hus : ∀ u ∈ us, u.data ∈ unitShapes) :
    ∃ (y : ℚ) (u : String), u.data ∈ unitShapes ∧
      humanLoop us x = fmt1 y ++ " " ++ u := by
  induction us generalizing x with
  | nil =>
    refine ⟨x, "TB", by decide, ?_⟩
    rw [humanLoop, String.append_assoc]
    rfl
  | cons u us ih =>
    by_cases hx : x < 1024
    · exact ⟨x, u, hus u (List.mem_cons_self u us), by simp [humanLoop, hx]⟩
    · obtain ⟨y, v, hv, he⟩ := ih (x / 1024)
        (fun w hw => hus w (List.mem_cons_of_mem u hw))
      exact ⟨y, v, hv, by simp [humanLoop, hx, he]⟩

theorem human_readable_formatted (total : Nat) :
    specSizeFormat (human_readable total) = true := by
  obtain ⟨y, u, hu, he⟩ := humanLoop_units sizeUnits (total : ℚ) (by decide)
  rw [human_readable, he]
  exact specSizeFormat_fmt1 y u hu

theorem walkTotal_skips_unreadable (files : List (Option Nat)) :
    walkTotal files = (files.filterMap id).sum := by
  induction files with
  | nil => rfl
  | cons f rest ih => cases f <;> simp [walkTotal, ih]

/-- C6 counterexample: on an existing path where `du` exits 0,
`get_dir_size` returns du's own first stdout token verbatim — here "4.0K" —
which does not use the spec's 1024-based `B/KB/MB/GB/TB` one-decimal
format. -/
theorem size_of_du_token_not_formatted :
    (get_dir_size ⟨"/home/u/.cache/pip", true,
        CmdOutcome.completed 0 "4.0K\t/home/u/.cache/pip\n" "",
        some [some 4096]⟩).1 = "4.0K" ∧
    specSizeFormat "4.0K" = false := by
  exact ⟨by decide, by decide⟩

/-- C6 (amended): when the path exists but the `du` step yields no token
(non-zero exit, launch failure or empty output), and the fallback walk
completes, the returned string uses the 1024-based unit ladder `B`, `KB`,
`MB`, `GB`, `TB` with one decimal place, with unreadable files skipped and
excluded from the total; when even the walk fails, the literal "unknown" is
returned rather than an exception.  (When `du` succeeds, its first output
token is returned verbatim.) -/
theorem size_of_fallback_formatted (env : DirEnv) (files : List (Option Nat))
    (hex : env.pathExists = true) (hdu : duToken env = none)
    (hw : env.walk = some files) :
    ((get_dir_size env).1 = human_readable (walkTotal files) ∧
      specSizeFormat (get_dir_size env).1 = true ∧
      walkTotal files = (files.filterMap id).sum) ∧
    (∀ e : DirEnv, e.pathExists = true → duToken e = none → e.walk = none →
      get_dir_size e = ("unknown", [["du", "-sh", e.path]])) := by
  have hmain : (get_dir_size env).1 = human_readable (walkTotal files) := by
    simp [get_dir_size, hex, hdu, hw]
  refine ⟨⟨hmain, ?_, walkTotal_skips_unreadable files⟩, ?_⟩
  · rw [hmain]
    exact human_readable_formatted _
  · intro e he hd hn
    simp [get_dir_size, he, hd, hn]

/-- Witness for C6 (amended) at a concrete environment where `du` fails and
one file of the walk is unreadable. -/
theorem size_of_fallback_formatted_witness :
    ((get_dir_size ⟨"/home/u/.cache/pip", true,
        CmdOutcome.completed 1 "" "du: cannot access",
        some [some 1500, none, some 548]⟩).1 =
      human_readable (walkTotal [some 1500, none, some 548]) ∧
     specSizeFormat (get_dir_size ⟨"/home/u/.cache/pip", true,
        CmdOutcome.completed 1 "" "du: cannot access",
        some [some 1500, none, some 548]⟩).1 = true ∧
     walkTotal [some 1500, none, some 548] =
      ([some 1500, none, some 548].filterMap id).sum) :=
  (size_of_fallback_formatted
    ⟨"/home/u/.cache/pip", true, CmdOutcome.completed 1 "" "du: cannot access",
      some [some 1500, none, some 548]⟩
    [some 1500, none, some 548] rfl rfl rfl).1
